import Mathlib

set_option autoImplicit false

namespace ManageEngine

/-- A parsed JSON value, the shape exchanged with the upstream API
(`newapp.py` works on the result of `r.json()` / `json.loads`).
Numbers are modelled as integers; the application only ever inspects
values structurally (dict / list / scalar), never arithmetically.
An `obj` is a Python dict: insertion-ordered fields with unique keys. -/
inductive Json where
  | null : Json
  | bool (b : Bool) : Json
  | num (n : Int) : Json
  | str (s : String) : Json
  | arr (elems : List Json) : Json
  | obj (fields : List (String × Json)) : Json
  deriving Repr

/-- Python `isinstance(v, dict)`. -/
def Json.isObj : Json → Bool
  | .obj _ => true
  | _ => false

/-- Python `isinstance(v, list)`. -/
def Json.isArr : Json → Bool
  | .arr _ => true
  | _ => false

/-- Python truthiness of a JSON value (`if parsed:`):
`None`, `False`, `0`, `""`, `[]` and `{}` are falsy. -/
def Json.truthy : Json → Bool
  | .null => false
  | .bool b => b
  | .num n => decide (n ≠ 0)
  | .str s => !s.isEmpty
  | .arr elems => !elems.isEmpty
  | .obj fields => !fields.isEmpty

mutual

/-- Whether a JSON value contains a list anywhere in its nested
dict structure (a list itself, or a dict one of whose values does). -/
def Json.hasList : Json → Bool
  | .arr _ => true
  | .obj fields => hasListFields fields
  | _ => false

/-- The `hasList` test over the values of a dict's field list. -/
def hasListFields : List (String × Json) → Bool
  | [] => false
  | (_, v) :: rest => v.hasList || hasListFields rest

end

-- ---------------------------------------------------------------------
-- find_first_list  (newapp.py lines 63-83)
-- ---------------------------------------------------------------------

/-- The fixed priority list of collection key names checked first by
`find_first_list` (`preferred_keys` in the source, line 74). -/
def preferred_keys : List String :=
  ["requests", "request", "data", "result", "results", "records", "response"]

/-- One step of the preferred-key loop:
`if k in obj and isinstance(obj[k], list): return obj[k]`. -/
def prefListAt (fields : List (String × Json)) (k : String) : Option (List Json) :=
  match fields.lookup k with
  | some (.arr l) => some l
  | _ => none

/-- The preferred-key loop of `find_first_list`: the first priority key
that is present in the dict with a list value, in `preferred_keys` order. -/
def firstPreferredList (fields : List (String × Json)) : Option (List Json) :=
  preferred_keys.findSome? (prefListAt fields)

mutual

/-- Source `find_first_list(obj)` (newapp.py lines 63-83): `None` and scalars
yield `None`; a list is returned as-is; for a dict, first try the
priority keys, then search the dict's values recursively in insertion
order; otherwise `None`. -/
def find_first_list : Json → Option (List Json)
  | .null => none
  | .arr elems => some elems
  | .obj fields =>
    match firstPreferredList fields with
    | some l => some l
    | none => findInValues fields
  | _ => none

/-- The recursive fallback loop of `find_first_list`:
`for v in obj.values(): found = find_first_list(v); if found is not None: return found`. -/
def findInValues : List (String × Json) → Option (List Json)
  | [] => none
  | (_, v) :: rest =>
    match find_first_list v with
    | some l => some l
    | none => findInValues rest

end

-- ---------------------------------------------------------------------
-- pandas json_normalize / DataFrame model
-- ---------------------------------------------------------------------

/-- A cell of a DataFrame: `none` is pandas' NaN (a key missing from a
record), `some v` a stored JSON value. -/
abbrev Cell := Option Json

/-- A pandas DataFrame as produced and consumed by `newapp.py`:
an ordered column list and rows, each row aligned positionally with
the columns. -/
structure DataFrame where
  columns : List String
  rows : List (List Cell)
  deriving Repr

/-- Pandas `df.empty`: true when any axis has length zero
(zero rows or zero columns). -/
def DataFrame.empty (df : DataFrame) : Bool :=
  df.rows.isEmpty || df.columns.isEmpty

/-- Dotted path join used by `pd.json_normalize(..., sep=.)`:
`k` when the prefix is empty, `prefix ++ "." ++ k` otherwise. -/
def joinKey (pfx k : String) : String :=
  if pfx = "" then k else pfx ++ "." ++ k

mutual

/-- Flattening of a nested (non top-level) mapping by pandas'
`nested_to_record`: every key of the mapping is renamed to its dotted
path; non-dict values (scalars, lists, null) are leaves, nested dicts
are expanded recursively.  At nested levels pandas pops each key and
appends its expansion, so entries appear in depth-first field order. -/
def flattenNested : String → List (String × Json) → List (String × Json)
  | _, [] => []
  | pfx, (k, v) :: rest => flattenValue (joinKey pfx k) v ++ flattenNested pfx rest

/-- One value during nested flattening: a nested dict is expanded under
its dotted path, anything else (scalars, lists, null) is a leaf. -/
def flattenValue : String → Json → List (String × Json)
  | newkey, .obj fields => flattenNested newkey fields
  | newkey, v => [(newkey, v)]

end

/-- Flattening of a top-level record by pandas' `nested_to_record` with
an empty prefix: non-dict entries are left in place (never popped), and
the expansion of each dict-valued entry is appended at the end, in field
order.  This is why `pd.json_normalize({...})` lists untouched scalar
columns first and dotted columns last. -/
def flattenTop (fields : List (String × Json)) : List (String × Json) :=
  fields.filter (fun p => !p.2.isObj) ++
    fields.flatMap (fun p =>
      match p.2 with
      | .obj sub => flattenNested p.1 sub
      | _ => [])

/-- First-seen-order union of the keys of a list of flat records: the
column index `pd.DataFrame(list_of_records)` builds. -/
def unionKeys (recs : List (List (String × Json))) : List String :=
  recs.foldl
    (fun acc rec =>
      rec.foldl (fun acc2 p => if acc2.contains p.1 then acc2 else acc2 ++ [p.1]) acc)
    []

/-- Pandas `json_normalize(records, sep=.)` on a list of records:
every record must be a mapping (otherwise pandas raises, modelled as
`none`); each record is flattened, the columns are the first-seen union
of the flattened keys, and a key missing from a record yields NaN. -/
def json_normalize (records : List Json) : Option DataFrame :=
  if records.all Json.isObj then
    let flats := records.map (fun r =>
      match r with
      | .obj fields => flattenTop fields
      | _ => [])
    let cols := unionKeys flats
    some ⟨cols, flats.map (fun rec => cols.map (fun c => rec.lookup c))⟩
  else
    none

/-- The `pd.DataFrame(lst)` fallback used by `json_to_dataframe` when
`pd.json_normalize` raises.  Modelled from pandas: a list of mappings
gives columns from the first-seen union of top-level keys; a list of
scalars gives the single positional column `0` (pandas renders a
RangeIndex; our columns are strings). -/
def dataFrameOfList (elems : List Json) : DataFrame :=
  if elems.all Json.isObj then
    let recs := elems.map (fun r =>
      match r with
      | .obj fields => fields
      | _ => [])
    let cols := unionKeys recs
    ⟨cols, recs.map (fun rec => cols.map (fun c => rec.lookup c))⟩
  else
    ⟨["0"], elems.map (fun v => [some v])⟩

/-- Source `json_to_dataframe(obj)` (newapp.py lines 85-115): `None` becomes the
empty DataFrame; a top-level list is normalized (falling back to
`pd.DataFrame(obj)` if normalization raises); a dict is searched for an
inner record list via `find_first_list`, which is normalized when found,
and otherwise the dict itself becomes a one-row DataFrame; any other
value falls through to `pd.DataFrame([obj])`. -/
def json_to_dataframe : Json → DataFrame
  | .null => ⟨[], []⟩
  | .arr elems =>
    match json_normalize elems with
    | some df => df
    | none => dataFrameOfList elems
  | .obj fields =>
    match find_first_list (.obj fields) with
    | some lst =>
      match json_normalize lst with
      | some df => df
      | none => dataFrameOfList lst
    | none =>
      match json_normalize [.obj fields] with
      | some df => df
      | none => dataFrameOfList [.obj fields]
  | v =>
    dataFrameOfList [v]

-- ---------------------------------------------------------------------
-- Column selection  (newapp.py lines 121-163)
-- ---------------------------------------------------------------------

/-- Source `PREFERRED_CREATE_COLUMNS` (newapp.py lines 121-131). -/
def PREFERRED_CREATE_COLUMNS : List String :=
  ["id", "subject", "description", "requester.id", "requester.name",
   "status.name", "site.name", "account.name", "created_time.display_value"]

/-- Source `PREFERRED_VIEW_COLUMNS` (newapp.py lines 133-149). -/
def PREFERRED_VIEW_COLUMNS : List String :=
  ["id", "subject", "requester.id", "requester.name", "status.name",
   "priority.name", "technician.name", "assigned_to.name", "group.name",
   "site.name", "account.name", "created_time", "created_time.display_value",
   "due_by_time.display_value"]

/-- The cell stored under column `c` of a row aligned with `cols`
(the value `df[c]` sees for that row); `none` when `c` names no column
or the row is too short. -/
def cellAt (cols : List String) (row : List Cell) (c : String) : Cell :=
  match (cols.zip row).lookup c with
  | some v => v
  | none => none

/-- Pandas `df[present]`: the DataFrame restricted to the columns `sel`, in
that order, every row kept. -/
def selectColumns (df : DataFrame) (sel : List String) : DataFrame :=
  ⟨sel, df.rows.map (fun row => sel.map (cellAt df.columns row))⟩

/-- Source `pick_preferred_columns(df, preferred)` (newapp.py lines 152-163):
an empty DataFrame is returned unchanged; otherwise keep the preferred
columns that exist, in preferred order, and if none exists return the
original DataFrame (`.copy()` is identity under value semantics). -/
def pick_preferred_columns (df : DataFrame) (preferred : List String) : DataFrame :=
  if df.empty then df
  else
    let present := preferred.filter (fun c => df.columns.contains c)
    if present.isEmpty then df
    else selectColumns df present

-- ---------------------------------------------------------------------
-- Rendering model  (newapp.py lines 165-189 and 392-414)
-- ---------------------------------------------------------------------

/-- What the UI layer is told to draw: the streamlit call the control
flow of `newapp.py` reaches with its payload. -/
inductive Display where
  | errorMsg (msg : String) : Display
  | rawText (text : String) : Display
  | rawJson (payload : Json) : Display
  | noData : Display
  | table (df : DataFrame) : Display

/-- Source `interactive_table(df, default_columns, ...)` (newapp.py lines
165-189) as a display decision: an empty DataFrame shows the info
message `No tableable data to display.` (the explicit no-data
indicator); otherwise the preferred columns that exist are selected
(all columns when none exists) and the table is drawn. -/
def interactive_table (df : DataFrame) (default_columns : List String) : Display :=
  if df.empty then .noData
  else
    let preferred_present := default_columns.filter (fun c => df.columns.contains c)
    if preferred_present.isEmpty then .table df
    else .table (selectColumns df preferred_present)

/-- The response-handling tail of `view_request_flow` (newapp.py lines
392-414) as a display decision.  `status` and `text` are the first two
components of the `safe_request_get` result and `parsed` the outcome of
`j if j is not None else json.loads(text)` with its `except` returning
`None`: a transport failure shows the error message, a falsy or
unparsable payload shows the raw text, a payload whose DataFrame is
empty shows the raw JSON, and otherwise the cleaned DataFrame is handed
to `interactive_table`. -/
def view_request_flow_render : Option Nat → String → Option Json → Display
  | none, text, _ => .errorMsg ("Request error: " ++ text)
  | some _, text, none => .rawText text
  | some _, text, some p =>
    if p.truthy then
      let df := json_to_dataframe p
      if df.empty then .rawJson p
      else interactive_table (pick_preferred_columns df PREFERRED_VIEW_COLUMNS)
        PREFERRED_VIEW_COLUMNS
    else .rawText text

-- ---------------------------------------------------------------------
-- safe_request_post / safe_request_get  (newapp.py lines 41-58)
-- ---------------------------------------------------------------------

/-- The response object `r` returned by `requests.post` / `requests.get`
when the call does not raise.  `contentType` is
`r.headers.get(Content-Type, "")`; `jsonValue` is `some j` when
`r.json()` parses the body to `j` and `none` when `r.json()` raises
`ValueError` (the body is not valid JSON). -/
structure HttpResponse where
  status_code : Nat
  text : String
  contentType : String
  jsonValue : Option Json

/-- The outcome of the `requests.post(...)` / `requests.get(...)` call
itself: every exception requests raises inherits from
`requests.exceptions.RequestException`, so the call either raises such
an exception or returns a response. -/
inductive RequestOutcome where
  | raiseRequestException (msg : String) : RequestOutcome
  | returnResponse (r : HttpResponse) : RequestOutcome

/-- Python `a in b` on strings (`'application/json' in r.headers.get(...)`). -/
def strContains (haystack needle : String) : Bool :=
  decide (List.IsInfix needle.toList haystack.toList)

/-- The `except ValueError` handler shared by both safe-request helpers:
`return r.status_code if 'r' in locals() else None, r.text if 'r' in
locals() else str(e), None`.  `rLocal` is the binding of `r` when the
exception is caught.  When `r` is not bound the handler evaluates
`str(e)`, but the handler does not bind `e` (`except ValueError:`), so
that expression raises an uncaught NameError, modelled as `.error`. -/
def exceptValueError (rLocal : Option HttpResponse) :
    Except String (Option Nat × String × Option Json) :=
  match rLocal with
  | some r => .ok (some r.status_code, r.text, none)
  | none => .error "NameError: name e is not defined"

/-- The shared body of `safe_request_post` (lines 41-49) and
`safe_request_get` (lines 51-58); the two differ only in the HTTP verb,
which the outcome of the call already abstracts.  A RequestException is
caught and reported as `(None, str(e), None)`.  Otherwise the try block
returns `r.status_code, r.text, r.json() if 'application/json' in
r.headers.get('Content-Type','') else None`; the only expression there
that can raise ValueError is `r.json()`, evaluated after `r` was bound,
so the ValueError handler runs with `r` in `locals()`. -/
def safe_request_body (outcome : RequestOutcome) :
    Except String (Option Nat × String × Option Json) :=
  match outcome with
  | .raiseRequestException msg => .ok (none, msg, none)
  | .returnResponse r =>
    if strContains r.contentType "application/json" then
      match r.jsonValue with
      | some j => .ok (some r.status_code, r.text, some j)
      | none => exceptValueError (some r)
    else .ok (some r.status_code, r.text, none)

/-- Source `safe_request_post(url, params, data, headers, ...)` over the
outcome of its `requests.post` call. -/
def safe_request_post (outcome : RequestOutcome) :
    Except String (Option Nat × String × Option Json) :=
  safe_request_body outcome

/-- Source `safe_request_get(url, params, headers, ...)` over the outcome of
its `requests.get` call. -/
def safe_request_get (outcome : RequestOutcome) :
    Except String (Option Nat × String × Option Json) :=
  safe_request_body outcome

-- ---------------------------------------------------------------------
-- General lemmas
-- ---------------------------------------------------------------------

/-- Every branch of the try body of the safe-request helpers returns the
triple `(some r.status_code, r.text, t)` with `t = r.json()` exactly when
the content type announces JSON and the body parses. -/
theorem safe_request_body_returnResponse (r : HttpResponse) :
    safe_request_body (.returnResponse r) =
      .ok (some r.status_code, r.text,
        if strContains r.contentType "application/json" then r.jsonValue
        else none) := by
  unfold safe_request_body
  by_cases h : strContains r.contentType "application/json" = true
  · cases hj : r.jsonValue <;> simp [h, hj, exceptValueError]
  · simp [Bool.not_eq_true] at h
    simp [h]

/-- The `List.findSome?` search returns the value found at index `i` when every
earlier element maps to `none`. -/
theorem findSome?_of_take_all_none {α β : Type} (f : α → Option β) :
    ∀ (l : List α) (i : Nat) (hi : i < l.length) (b : β),
      ((l.take i).all fun a => (f a).isNone) = true →
      f (l.get ⟨i, hi⟩) = some b →
      l.findSome? f = some b := by
  intro l
  induction l with
  | nil => intro i hi; simp at hi
  | cons a t ih =>
    intro i hi b hall hget
    cases i with
    | zero =>
      simp only [List.get] at hget
      simp [List.findSome?_cons, hget]
    | succ n =>
      simp only [List.take_succ_cons, List.all_cons, Bool.and_eq_true] at hall
      have ha : f a = none := by
        have := hall.1
        simpa [Option.isNone_iff_eq_none] using this
      simp only [List.findSome?_cons, ha]
      exact ih n (by simpa using hi) b hall.2 hget

/-- A successful `List.lookup` exhibits a member pair. -/
theorem mem_of_lookup_eq_some {α β : Type} [BEq α] [LawfulBEq α] :
    ∀ (l : List (α × β)) (k : α) (v : β), l.lookup k = some v → (k, v) ∈ l := by
  intro l
  induction l with
  | nil => intro k v h; simp [List.lookup] at h
  | cons p t ih =>
    intro k v h
    rw [List.lookup_cons] at h
    by_cases hk : (k == p.1) = true
    · have hkeq : k = p.1 := eq_of_beq hk
      rw [hk] at h
      simp at h
      have : (k, v) = p := by
        cases p with
        | mk a b => simp_all
      rw [this]
      exact List.mem_cons_self _ _
    · have hkf : (k == p.1) = false := by
        simpa [Bool.not_eq_true] using hk
      rw [hkf] at h
      exact List.mem_cons_of_mem _ (ih k v h)

-- ---------------------------------------------------------------------
-- Claim theorems
-- ---------------------------------------------------------------------

/-- C4: for every JSON value that is itself a list, `find_first_list`
returns that list unchanged. -/
theorem find_first_list_on_list (elems : List Json) :
    find_first_list (.arr elems) = some elems := rfl

/-- C5: `find_first_list` distinguishes the empty list from `None`: the
input `[]` yields the empty list (not `None`), and a dict whose located
list is empty likewise; `json_to_dataframe` turns the empty list into a
DataFrame with zero rows and zero columns instead of the single-object
fallback. -/
theorem find_first_list_empty_list_not_none :
    find_first_list (.arr []) = some [] ∧
    json_to_dataframe (.arr []) = ⟨[], []⟩ ∧
    (∀ fields : List (String × Json), find_first_list (.obj fields) = some [] →
      json_to_dataframe (.obj fields) = ⟨[], []⟩) := by
  refine ⟨rfl, rfl, ?_⟩
  intro fields h
  simp only [json_to_dataframe, h]
  rfl

/-- Witness for C5: the dict `{"data": []}` locates the empty list and
is converted to the zero-row zero-column DataFrame. -/
theorem find_first_list_empty_list_not_none_witness :
    json_to_dataframe (.obj [("data", .arr [])]) = ⟨[], []⟩ :=
  find_first_list_empty_list_not_none.2.2 _ rfl

/-- C6: a network/connection failure or timeout (a caught
`RequestException`) makes both safe-request helpers return a null status
component together with the error-message string, while a completed HTTP
response always carries its non-null status code. -/
theorem safe_request_transport_error_null_status :
    (∀ msg, safe_request_post (.raiseRequestException msg) = .ok (none, msg, none)) ∧
    (∀ msg, safe_request_get (.raiseRequestException msg) = .ok (none, msg, none)) ∧
    (∀ r, safe_request_post (.returnResponse r) =
      .ok (some r.status_code, r.text,
        if strContains r.contentType "application/json" then r.jsonValue
        else none)) ∧
    (∀ r, safe_request_get (.returnResponse r) =
      .ok (some r.status_code, r.text,
        if strContains r.contentType "application/json" then r.jsonValue
        else none)) :=
  ⟨fun _ => rfl, fun _ => rfl,
   fun r => safe_request_body_returnResponse r,
   fun r => safe_request_body_returnResponse r⟩

/-- C10: both safe-request helpers always return a 3-tuple (no caught
exception propagates and the NameError latent in the `str(e)` fallback
is never raised), and in the JSON-decode-error branch the response `r`
is already bound, so the branch returns the status code and raw body. -/
theorem safe_request_always_returns_triple :
    (∀ o, ∃ t, safe_request_post o = .ok t) ∧
    (∀ o, ∃ t, safe_request_get o = .ok t) ∧
    (∀ r : HttpResponse, strContains r.contentType "application/json" = true →
      r.jsonValue = none →
      safe_request_post (.returnResponse r) = .ok (some r.status_code, r.text, none)) ∧
    (∀ r : HttpResponse, strContains r.contentType "application/json" = true →
      r.jsonValue = none →
      safe_request_get (.returnResponse r) = .ok (some r.status_code, r.text, none)) := by
  have hok : ∀ o, ∃ t, safe_request_body o = .ok t := by
    intro o
    cases o with
    | raiseRequestException msg => exact ⟨(none, msg, none), rfl⟩
    | returnResponse r =>
      exact ⟨_, safe_request_body_returnResponse r⟩
  have hdec : ∀ r : HttpResponse, strContains r.contentType "application/json" = true →
      r.jsonValue = none →
      safe_request_body (.returnResponse r) = .ok (some r.status_code, r.text, none) := by
    intro r hct hj
    rw [safe_request_body_returnResponse r, hct, if_pos rfl, hj]
  exact ⟨hok, hok, hdec, hdec⟩

/-- Witness for C10: a JSON-labelled response whose body does not parse
still yields its status code and raw body from both helpers. -/
theorem safe_request_always_returns_triple_witness :
    safe_request_post (.returnResponse ⟨500, "oops", "application/json", none⟩) =
      .ok (some 500, "oops", none) ∧
    safe_request_get (.returnResponse ⟨500, "oops", "application/json", none⟩) =
      .ok (some 500, "oops", none) :=
  ⟨safe_request_always_returns_triple.2.2.1 ⟨500, "oops", "application/json", none⟩
      (by decide) rfl,
   safe_request_always_returns_triple.2.2.2 ⟨500, "oops", "application/json", none⟩
      (by decide) rfl⟩

/-- C2: when a dict holds lists under two (or more) priority collection
keys, `find_first_list` returns the list under the priority key that
comes first in the declared `preferred_keys` order — the hypotheses
quantify over every dict field list, so the result is independent of the
dict's insertion order. -/
theorem find_first_list_priority_order
    (fields : List (String × Json)) (i j : Nat)
    (hi : i < preferred_keys.length) (hj : j < preferred_keys.length)
    (hij : i < j) (li lj : List Json)
    (h1 : prefListAt fields (preferred_keys.get ⟨i, hi⟩) = some li)
    (h2 : prefListAt fields (preferred_keys.get ⟨j, hj⟩) = some lj)
    (hmin : ((preferred_keys.take i).all fun k => (prefListAt fields k).isNone) = true) :
    find_first_list (.obj fields) = some li := by
  have hfp : firstPreferredList fields = some li :=
    findSome?_of_take_all_none (prefListAt fields) preferred_keys i hi li hmin h1
  simp [find_first_list, firstPreferredList] at hfp ⊢
  simp [hfp]

/-- Witness for C2: `{"response": [2], "data": [1]}` holds lists under
the priority keys `data` (index 2) and `response` (index 6); the list
under `data` is returned even though `response` was inserted first. -/
theorem find_first_list_priority_order_witness :
    find_first_list (.obj [("response", .arr [.num 2]), ("data", .arr [.num 1])]) =
      some [.num 1] :=
  find_first_list_priority_order
    [("response", .arr [.num 2]), ("data", .arr [.num 1])]
    2 6 (by decide) (by decide) (by decide) [.num 1] [.num 2] rfl rfl (by decide)

/-- Applying `pick_preferred_columns` to a pandas-empty DataFrame is the
identity. -/
theorem pick_preferred_columns_of_empty (df : DataFrame) (P : List String)
    (h : df.empty = true) : pick_preferred_columns df P = df := by
  unfold pick_preferred_columns
  rw [h]
  rfl

/-- Applying `pick_preferred_columns` to a non-empty DataFrame reduces to the
present-columns branch. -/
theorem pick_preferred_columns_of_not_empty (df : DataFrame) (P : List String)
    (h : df.empty = false) :
    pick_preferred_columns df P =
      (if (P.filter (fun c => df.columns.contains c)).isEmpty then df
       else selectColumns df (P.filter (fun c => df.columns.contains c))) := by
  unfold pick_preferred_columns
  rw [h]
  rfl

/-- With no preferred column present, a non-empty DataFrame is returned
unchanged. -/
theorem pick_preferred_columns_of_present_nil (df : DataFrame) (P : List String)
    (h : df.empty = false) (hfil : P.filter (fun c => df.columns.contains c) = []) :
    pick_preferred_columns df P = df := by
  rw [pick_preferred_columns_of_not_empty df P h, hfil]
  rfl

/-- With some preferred column present, a non-empty DataFrame is
restricted to exactly the present preferred columns. -/
theorem pick_preferred_columns_of_present_ne_nil (df : DataFrame) (P : List String)
    (h : df.empty = false) (hfil : P.filter (fun c => df.columns.contains c) ≠ []) :
    pick_preferred_columns df P =
      selectColumns df (P.filter (fun c => df.columns.contains c)) := by
  rw [pick_preferred_columns_of_not_empty df P h]
  have hie : (P.filter (fun c => df.columns.contains c)).isEmpty = false := by
    simpa [List.isEmpty_iff] using hfil
  rw [hie]
  rfl

/-- Counterexample to C1 as stated: for the zero-row table with columns
`["id","subject"]` and preference list `["subject"]`, the preferred
column `subject` does occur in the table, yet `pick_preferred_columns`
returns the table unchanged (pandas' `df.empty` is true when any axis is
empty), so its column list `["id","subject"]` is not the columns of the
preference list that occur in the table. -/
theorem pick_preferred_columns_empty_table_counterexample :
    (DataFrame.columns ⟨["id", "subject"], []⟩).contains "subject" = true ∧
    pick_preferred_columns ⟨["id", "subject"], []⟩ ["subject"] =
      (⟨["id", "subject"], []⟩ : DataFrame) ∧
    (pick_preferred_columns ⟨["id", "subject"], []⟩ ["subject"]).columns ≠
      (["subject"] : List String).filter
        (fun c => (DataFrame.columns ⟨["id", "subject"], []⟩).contains c) := by
  refine ⟨by decide, rfl, ?_⟩
  intro h
  simp [pick_preferred_columns, DataFrame.empty, selectColumns] at h

/-- C1 (amended: the column-list clause holds for tables with at least
one row; pandas-empty tables are returned unchanged): the projection
contains no column absent from the table; on a table with at least one
row its column list equals the columns of the preference list that occur
in the table, in preference order, whenever that restriction is
non-empty; and when no preferred column occurs in the table the table is
returned unchanged, never an empty table. -/
theorem pick_preferred_columns_projection_spec (df : DataFrame) (P : List String)
    (hrows : df.rows ≠ []) :
    (∀ c, c ∈ (pick_preferred_columns df P).columns → c ∈ df.columns) ∧
    (P.filter (fun c => df.columns.contains c) ≠ [] →
      (pick_preferred_columns df P).columns =
        P.filter (fun c => df.columns.contains c)) ∧
    (P.filter (fun c => df.columns.contains c) = [] →
      pick_preferred_columns df P = df) := by
  have hre : df.rows.isEmpty = false := by
    simpa [List.isEmpty_iff] using hrows
  by_cases hc : df.columns = []
  · have hempty : df.empty = true := by simp [DataFrame.empty, hc]
    have hfil : P.filter (fun c => df.columns.contains c) = [] := by
      simp [hc, List.contains]
    have hres := pick_preferred_columns_of_empty df P hempty
    refine ⟨?_, ?_, fun _ => hres⟩
    · intro c hmem
      rw [hres] at hmem
      exact hmem
    · intro hne; exact absurd hfil hne
  · have hempty : df.empty = false := by
      simp [DataFrame.empty, hre, List.isEmpty_iff, hc]
    by_cases hp : P.filter (fun c => df.columns.contains c) = []
    · have hres := pick_preferred_columns_of_present_nil df P hempty hp
      exact ⟨by intro c hmem; rw [hres] at hmem; exact hmem,
        fun hne => absurd hp hne, fun _ => hres⟩
    · have hres := pick_preferred_columns_of_present_ne_nil df P hempty hp
      refine ⟨?_, fun _ => by rw [hres]; rfl, fun h => absurd h hp⟩
      intro c hmem
      rw [hres] at hmem
      have hmf : c ∈ P.filter (fun c => df.columns.contains c) := hmem
      have := List.of_mem_filter hmf
      simpa [List.contains] using this

/-- Witness for C1 (amended): a one-row table with columns
`["id","subject"]` and preference list `["subject","nonexistent_col"]`. -/
theorem pick_preferred_columns_projection_spec_witness :
    (∀ c, c ∈ (pick_preferred_columns
        ⟨["id", "subject"], [[some (.str "1"), some (.str "X")]]⟩
        ["subject", "nonexistent_col"]).columns →
      c ∈ DataFrame.columns ⟨["id", "subject"], [[some (.str "1"), some (.str "X")]]⟩) ∧
    ((["subject", "nonexistent_col"] : List String).filter
        (fun c => (DataFrame.columns
          ⟨["id", "subject"], [[some (.str "1"), some (.str "X")]]⟩).contains c) ≠ [] →
      (pick_preferred_columns
        ⟨["id", "subject"], [[some (.str "1"), some (.str "X")]]⟩
        ["subject", "nonexistent_col"]).columns =
        (["subject", "nonexistent_col"] : List String).filter
          (fun c => (DataFrame.columns
            ⟨["id", "subject"], [[some (.str "1"), some (.str "X")]]⟩).contains c)) ∧
    ((["subject", "nonexistent_col"] : List String).filter
        (fun c => (DataFrame.columns
          ⟨["id", "subject"], [[some (.str "1"), some (.str "X")]]⟩).contains c) = [] →
      pick_preferred_columns
        ⟨["id", "subject"], [[some (.str "1"), some (.str "X")]]⟩
        ["subject", "nonexistent_col"] =
        ⟨["id", "subject"], [[some (.str "1"), some (.str "X")]]⟩) :=
  pick_preferred_columns_projection_spec
    ⟨["id", "subject"], [[some (.str "1"), some (.str "X")]]⟩
    ["subject", "nonexistent_col"] (List.cons_ne_nil _ _)

/-- Looking a column up in a row built by mapping a function over the
same column list recovers the function's value. -/
theorem lookup_zip_map {α : Type} (f : String → α) :
    ∀ (l : List String) (c : String), c ∈ l →
      (l.zip (l.map f)).lookup c = some (f c) := by
  intro l
  induction l with
  | nil => intro c hc; simp at hc
  | cons a t ih =>
    intro c hc
    simp only [List.map_cons, List.zip_cons_cons]
    rw [List.lookup_cons]
    by_cases hca : (c == a) = true
    · have : c = a := eq_of_beq hca
      rw [hca, this]
    · have hcf : (c == a) = false := by simpa [Bool.not_eq_true] using hca
      rw [hcf]
      have hct : c ∈ t := by
        rcases List.mem_cons.mp hc with h | h
        · exact absurd (beq_iff_eq.mpr h) hca
        · exact h
      exact ih c hct

/-- A cell of a row built by mapping a function over the very column
list it is indexed by recovers that function's value. -/
theorem cellAt_map_self (f : String → Cell) (sel : List String) (c : String)
    (hc : c ∈ sel) : cellAt sel (sel.map f) c = f c := by
  unfold cellAt
  rw [lookup_zip_map f sel c hc]

/-- C8: on a non-empty table, `pick_preferred_columns` keeps exactly the
same rows in the same order — the row count is unchanged and every
retained column holds, row by row (indexing rows by position), the value
the original table stored there. -/
theorem pick_preferred_columns_preserves_rows (df : DataFrame) (P : List String)
    (h : df.empty = false) :
    ((pick_preferred_columns df P).rows.length = df.rows.length) ∧
    (∀ c, c ∈ (pick_preferred_columns df P).columns →
      ∀ i : Nat,
        ((pick_preferred_columns df P).rows.get? i).map
          (fun row => cellAt (pick_preferred_columns df P).columns row c) =
        (df.rows.get? i).map (fun row => cellAt df.columns row c)) := by
  by_cases hp : P.filter (fun c => df.columns.contains c) = []
  · have hres := pick_preferred_columns_of_present_nil df P h hp
    rw [hres]
    exact ⟨rfl, fun c _ i => rfl⟩
  · have hres := pick_preferred_columns_of_present_ne_nil df P h hp
    rw [hres]
    constructor
    · exact List.length_map _ _
    · intro c hmem i
      have hcsel : c ∈ P.filter (fun c => df.columns.contains c) := hmem
      show ((df.rows.map fun row =>
          (P.filter (fun c => df.columns.contains c)).map (cellAt df.columns row)).get? i).map _ = _
      rw [List.get?_map]
      cases hrow : df.rows.get? i with
      | none => rfl
      | some row =>
        simp only [Option.map_some', selectColumns]
        rw [cellAt_map_self (cellAt df.columns row) _ c hcsel]

/-- Witness for C8: a one-row table with columns `["id","x"]` projected
onto `["x"]`. -/
theorem pick_preferred_columns_preserves_rows_witness :
    ((pick_preferred_columns ⟨["id", "x"], [[some (.str "1"), none]]⟩ ["x"]).rows.length =
      (DataFrame.rows ⟨["id", "x"], [[some (.str "1"), none]]⟩).length) ∧
    (∀ c, c ∈ (pick_preferred_columns ⟨["id", "x"], [[some (.str "1"), none]]⟩ ["x"]).columns →
      ∀ i : Nat,
        ((pick_preferred_columns ⟨["id", "x"], [[some (.str "1"), none]]⟩ ["x"]).rows.get? i).map
          (fun row => cellAt
            (pick_preferred_columns ⟨["id", "x"], [[some (.str "1"), none]]⟩ ["x"]).columns row c) =
        ((DataFrame.rows ⟨["id", "x"], [[some (.str "1"), none]]⟩).get? i).map
          (fun row => cellAt (DataFrame.columns ⟨["id", "x"], [[some (.str "1"), none]]⟩) row c)) :=
  pick_preferred_columns_preserves_rows
    ⟨["id", "x"], [[some (.str "1"), none]]⟩ ["x"] (by decide)

/-- The `interactive_table` helper shows the explicit no-data info message exactly
on pandas-empty input. -/
theorem interactive_table_noData_of_empty (df : DataFrame) (cols : List String)
    (h : df.empty = true) : interactive_table df cols = .noData := by
  simp [interactive_table, h]

/-- Whenever `interactive_table` draws a table, that table is
non-empty. -/
theorem interactive_table_table_not_empty (df : DataFrame) (cols : List String)
    (d : DataFrame) (h : interactive_table df cols = .table d) : d.empty = false := by
  unfold interactive_table at h
  by_cases he : df.empty = true
  · rw [if_pos he] at h
    exact Display.noConfusion h
  · have he' : df.empty = false := by simpa [Bool.not_eq_true] using he
    rw [if_neg he] at h
    have hcols : df.columns.isEmpty = false := by
      have := he'
      unfold DataFrame.empty at this
      exact (Bool.or_eq_false_iff.mp this).2
    have hrows : df.rows.isEmpty = false := by
      have := he'
      unfold DataFrame.empty at this
      exact (Bool.or_eq_false_iff.mp this).1
    by_cases hpp : (cols.filter (fun c => df.columns.contains c)).isEmpty = true
    · rw [if_pos hpp] at h
      have hd : df = d := by
        injection h
      rw [← hd]
      exact he'
    · rw [if_neg hpp] at h
      have hd : selectColumns df (cols.filter (fun c => df.columns.contains c)) = d := by
        injection h
      rw [← hd]
      unfold DataFrame.empty selectColumns
      have h1 : (df.rows.map fun row =>
          (cols.filter (fun c => df.columns.contains c)).map (cellAt df.columns row)).isEmpty
            = false := by
        cases hr : df.rows with
        | nil => rw [hr] at hrows; simp at hrows
        | cons r t => rfl
      have h2 : (cols.filter (fun c => df.columns.contains c)).isEmpty = false := by
        simpa [Bool.not_eq_true] using hpp
      rw [h1, h2]
      rfl

/-- Whenever the view flow draws a table, that table is non-empty. -/
theorem view_request_flow_render_table_not_empty (st : Option Nat) (tx : String)
    (pr : Option Json) (d : DataFrame)
    (h : view_request_flow_render st tx pr = .table d) : d.empty = false := by
  cases st with
  | none => exact Display.noConfusion h
  | some s =>
    cases pr with
    | none => exact Display.noConfusion h
    | some p =>
      simp only [view_request_flow_render] at h
      by_cases ht : p.truthy = true
      · rw [if_pos ht] at h
        by_cases he : (json_to_dataframe p).empty = true
        · rw [if_pos he] at h
          exact Display.noConfusion h
        · rw [if_neg he] at h
          exact interactive_table_table_not_empty _ _ _ h
      · rw [if_neg ht] at h
        exact Display.noConfusion h

/-- Counterexample to C7 as stated: the payload `{"requests": []}`
converts to a zero-row table, and the view flow then shows the raw JSON
payload, not the explicit no-data indicator. -/
theorem view_flow_zero_rows_counterexample :
    (json_to_dataframe (.obj [("requests", .arr [])])).rows = [] ∧
    view_request_flow_render (some 200) "body" (some (.obj [("requests", .arr [])])) =
      .rawJson (.obj [("requests", .arr [])]) ∧
    view_request_flow_render (some 200) "body" (some (.obj [("requests", .arr [])])) ≠
      .noData := by
  refine ⟨rfl, rfl, ?_⟩
  intro h
  exact Display.noConfusion h

/-- C7 (amended: a response whose converted table is pandas-empty makes
the view flow display the raw JSON payload — never an empty table; the
explicit no-data indicator is produced by `interactive_table` only when
it is itself handed an empty table, which the view flow filters out
beforehand). -/
theorem view_flow_empty_table_display (s : Nat) (text : String) (p : Json)
    (htruthy : p.truthy = true) (hempty : (json_to_dataframe p).empty = true) :
    view_request_flow_render (some s) text (some p) = .rawJson p ∧
    (∀ df cols, df.empty = true → interactive_table df cols = .noData) ∧
    (∀ st tx pr d, view_request_flow_render st tx pr = .table d → d.empty = false) := by
  refine ⟨?_, interactive_table_noData_of_empty, view_request_flow_render_table_not_empty⟩
  simp only [view_request_flow_render]
  rw [if_pos htruthy, if_pos hempty]

/-- Witness for C7 (amended) at the payload `{"requests": []}`. -/
theorem view_flow_empty_table_display_witness :
    view_request_flow_render (some 200) "body" (some (.obj [("requests", .arr [])])) =
      .rawJson (.obj [("requests", .arr [])]) ∧
    (∀ df cols, df.empty = true → interactive_table df cols = .noData) ∧
    (∀ st tx pr d, view_request_flow_render st tx pr = .table d → d.empty = false) :=
  view_flow_empty_table_display 200 "body" (.obj [("requests", .arr [])]) rfl rfl

/-- Occurrence of a JSON value inside another: reflexivity, or inside an
element of an array, or inside a field value of an object. -/
inductive SubValue : Json → Json → Prop where
  | refl (j : Json) : SubValue j j
  | inArr {j x : Json} {elems : List Json} :
      SubValue j x → x ∈ elems → SubValue j (.arr elems)
  | inObj {j v : Json} {k : String} {fields : List (String × Json)} :
      SubValue j v → (k, v) ∈ fields → SubValue j (.obj fields)

/-- A successful priority-key probe exhibits a list-valued binding. -/
theorem lookup_of_prefListAt_eq_some (fields : List (String × Json)) (k : String)
    (l : List Json) (h : prefListAt fields k = some l) :
    fields.lookup k = some (.arr l) := by
  unfold prefListAt at h
  cases hlk : fields.lookup k with
  | none => rw [hlk] at h; exact Option.noConfusion h
  | some v =>
    rw [hlk] at h
    cases v <;> simp_all

mutual

/-- Any list `find_first_list` returns occurs inside the input value. -/
theorem find_first_list_sub : (j : Json) → (l : List Json) →
    find_first_list j = some l → SubValue (.arr l) j
  | .null, _, h => Option.noConfusion h
  | .bool _, _, h => Option.noConfusion h
  | .num _, _, h => Option.noConfusion h
  | .str _, _, h => Option.noConfusion h
  | .arr elems, l, h => by
    have : elems = l := by
      simpa [find_first_list] using h
    rw [← this]
    exact SubValue.refl _
  | .obj fields, l, h => by
    simp only [find_first_list] at h
    cases hfp : firstPreferredList fields with
    | some l0 =>
      rw [hfp] at h
      have hl : l0 = l := by simpa using h
      obtain ⟨k, _, hpk⟩ := List.exists_of_findSome?_eq_some hfp
      have hlk := lookup_of_prefListAt_eq_some fields k l0 hpk
      have hmem := mem_of_lookup_eq_some fields k (.arr l0) hlk
      rw [← hl]
      exact SubValue.inObj (SubValue.refl _) hmem
    | none =>
      rw [hfp] at h
      obtain ⟨k, v, hmem, hsub⟩ := findInValues_sub fields l h
      exact SubValue.inObj hsub hmem

/-- Any list the recursive value search returns occurs inside one of the
dict's values. -/
theorem findInValues_sub : (fields : List (String × Json)) → (l : List Json) →
    findInValues fields = some l →
    ∃ k v, (k, v) ∈ fields ∧ SubValue (.arr l) v
  | [], _, h => Option.noConfusion h
  | (k, v) :: rest, l, h => by
    simp only [findInValues] at h
    cases hf : find_first_list v with
    | some l0 =>
      rw [hf] at h
      have hl : l0 = l := by simpa using h
      rw [hl] at hf
      exact ⟨k, v, List.mem_cons_self _ _, find_first_list_sub v l hf⟩
    | none =>
      rw [hf] at h
      obtain ⟨k', v', hmem, hsub⟩ := findInValues_sub rest l h
      exact ⟨k', v', List.mem_cons_of_mem _ hmem, hsub⟩

end

/-- C9: on every JSON-like input, `find_first_list` either returns
nothing (in particular on null and on every scalar) or returns a list
that occurs within the input structure — by its very type it can never
produce a scalar, string or mapping. -/
theorem find_first_list_shape_invariant :
    (find_first_list .null = none) ∧
    (∀ b, find_first_list (.bool b) = none) ∧
    (∀ n, find_first_list (.num n) = none) ∧
    (∀ s, find_first_list (.str s) = none) ∧
    (∀ j l, find_first_list j = some l → SubValue (.arr l) j) :=
  ⟨rfl, fun _ => rfl, fun _ => rfl, fun _ => rfl, find_first_list_sub⟩

/-- Witness for C9: the list located inside `{"meta": {"rows": [1]}}`
occurs within that input. -/
theorem find_first_list_shape_invariant_witness :
    SubValue (.arr [.num 1]) (.obj [("meta", .obj [("rows", .arr [.num 1])])]) :=
  find_first_list_shape_invariant.2.2.2.2
    (.obj [("meta", .obj [("rows", .arr [.num 1])])]) [.num 1] rfl

/-- In a dict none of whose values contains a list, every field value is
list-free. -/
theorem hasList_eq_false_of_mem (fields : List (String × Json))
    (hf : hasListFields fields = false) :
    ∀ p, p ∈ fields → p.2.hasList = false := by
  induction fields with
  | nil => intro p hp; simp at hp
  | cons q rest ih =>
    obtain ⟨k, v⟩ := q
    intro p hp
    simp only [hasListFields, Bool.or_eq_false_iff] at hf
    rcases List.mem_cons.mp hp with h | h
    · rw [h]; exact hf.1
    · exact ih hf.2 p h

mutual

/-- A value containing no list anywhere makes `find_first_list` return
`None`. -/
theorem find_first_list_none_of_not_hasList : (j : Json) → j.hasList = false →
    find_first_list j = none
  | .null, _ => rfl
  | .bool _, _ => rfl
  | .num _, _ => rfl
  | .str _, _ => rfl
  | .arr _, h => by simp [Json.hasList] at h
  | .obj fields, h => by
    have hfl : hasListFields fields = false := by
      simpa [Json.hasList] using h
    have hfp : firstPreferredList fields = none := by
      unfold firstPreferredList
      rw [List.findSome?_eq_none_iff]
      intro k _
      cases hpk : prefListAt fields k with
      | none => rfl
      | some l =>
        have hlk := lookup_of_prefListAt_eq_some fields k l hpk
        have hmem := mem_of_lookup_eq_some fields k (.arr l) hlk
        have := hasList_eq_false_of_mem fields hfl (k, .arr l) hmem
        simp [Json.hasList] at this
    simp only [find_first_list]
    rw [hfp]
    exact findInValues_none_of_not_hasList fields hfl

/-- The recursive value search finds nothing in a list-free field
list. -/
theorem findInValues_none_of_not_hasList : (fields : List (String × Json)) →
    hasListFields fields = false → findInValues fields = none
  | [], _ => rfl
  | (_, v) :: rest, h => by
    simp only [hasListFields, Bool.or_eq_false_iff] at h
    simp only [findInValues]
    rw [find_first_list_none_of_not_hasList v h.1]
    exact findInValues_none_of_not_hasList rest h.2

end

/-- Folding the first-seen key insertion over a record with distinct
keys, starting from an accumulator disjoint from them, appends exactly
the record's keys. -/
theorem foldl_insert_of_nodup (rec : List (String × Json)) :
    ∀ acc : List String, (rec.map Prod.fst).Nodup →
      (∀ k, k ∈ rec.map Prod.fst → acc.contains k = false) →
      rec.foldl (fun acc2 p => if acc2.contains p.1 then acc2 else acc2 ++ [p.1]) acc =
        acc ++ rec.map Prod.fst := by
  induction rec with
  | nil => intro acc _ _; simp
  | cons p t ih =>
    intro acc hnd hdisj
    have hc : acc.contains p.1 = false :=
      hdisj p.1 (by simp)
    have hnd1 : p.1 ∉ t.map Prod.fst := (List.nodup_cons.mp (by simpa using hnd)).1
    have hnd2 : (t.map Prod.fst).Nodup := (List.nodup_cons.mp (by simpa using hnd)).2
    simp only [List.foldl_cons]
    rw [if_neg (by simp only [hc]; exact Bool.false_ne_true)]
    rw [ih (acc ++ [p.1]) hnd2 ?_]
    · simp
    · intro k hk
      have hka : k ∉ acc := by
        have := hdisj k (by simp [hk])
        simpa [List.contains] using this
      have hkp : k ≠ p.1 := fun he => hnd1 (he ▸ hk)
      simp [List.contains, hka, hkp]

/-- Mapping `lookup` over the key list of a record with distinct keys
recovers the record's values in order. -/
theorem map_lookup_self (rec : List (String × Json))
    (hnd : (rec.map Prod.fst).Nodup) :
    (rec.map Prod.fst).map (fun c => rec.lookup c) =
      rec.map (fun p => some p.2) := by
  induction rec with
  | nil => rfl
  | cons p t ih =>
    obtain ⟨k, v⟩ := p
    simp only [List.map_cons] at hnd ⊢
    have hnd1 : k ∉ t.map Prod.fst := (List.nodup_cons.mp hnd).1
    have hnd2 : (t.map Prod.fst).Nodup := (List.nodup_cons.mp hnd).2
    congr 1
    · rw [List.lookup_cons]
      simp
    · rw [List.map_congr_left ?_, ih hnd2]
      intro c hc
      rw [List.lookup_cons]
      have hck : (c == k) = false := by
        have : c ≠ k := fun he => hnd1 (he ▸ hc)
        simpa using this
      rw [hck]

/-- Pandas `json_normalize` of a single record with collision-free flattened
paths: one row whose columns are the record's flattened keys and whose
cells are the corresponding values. -/
theorem json_normalize_singleton (fields : List (String × Json))
    (hnd : ((flattenTop fields).map Prod.fst).Nodup) :
    json_normalize [.obj fields] =
      some ⟨(flattenTop fields).map Prod.fst,
        [(flattenTop fields).map (fun p => some p.2)]⟩ := by
  unfold json_normalize
  rw [if_pos (by rfl)]
  simp only [List.map_cons, List.map_nil]
  have hcols : unionKeys [flattenTop fields] = (flattenTop fields).map Prod.fst := by
    unfold unionKeys
    simp only [List.foldl_cons, List.foldl_nil]
    simpa using foldl_insert_of_nodup (flattenTop fields) [] hnd (fun k _ => rfl)
  rw [hcols, map_lookup_self (flattenTop fields) hnd]

/-- C3: for a mapping containing no list anywhere, `find_first_list`
returns `None`, and `json_to_dataframe` builds a one-row table whose
columns are the dot-joined flattened paths of the mapping with the
corresponding leaf values (stated for mappings whose flattened paths do
not collide, which every Python dict without duplicate dotted paths
satisfies). -/
theorem json_to_dataframe_no_list_single_row (fields : List (String × Json))
    (hnl : hasListFields fields = false)
    (hnd : ((flattenTop fields).map Prod.fst).Nodup) :
    find_first_list (.obj fields) = none ∧
    json_to_dataframe (.obj fields) =
      ⟨(flattenTop fields).map Prod.fst,
        [(flattenTop fields).map (fun p => some p.2)]⟩ := by
  have hff := find_first_list_none_of_not_hasList (.obj fields)
    (by simpa [Json.hasList] using hnl)
  refine ⟨hff, ?_⟩
  simp only [json_to_dataframe, hff, json_normalize_singleton fields hnd]

/-- Witness for C3 at Scenario B of the spec:
`{"status":"ok","data":{"id":"5"}}` flattens to the one-row table with
columns `status` and `data.id`. -/
theorem json_to_dataframe_no_list_single_row_witness :
    find_first_list (.obj [("status", .str "ok"), ("data", .obj [("id", .str "5")])]) =
      none ∧
    json_to_dataframe (.obj [("status", .str "ok"), ("data", .obj [("id", .str "5")])]) =
      ⟨(flattenTop [("status", .str "ok"), ("data", .obj [("id", .str "5")])]).map Prod.fst,
        [(flattenTop [("status", .str "ok"), ("data", .obj [("id", .str "5")])]).map
          (fun p => some p.2)]⟩ :=
  json_to_dataframe_no_list_single_row
    [("status", .str "ok"), ("data", .obj [("id", .str "5")])] (by decide) (by decide)

/-- The witness table of C3 is literally the table of Scenario B:
columns `["status","data.id"]`, one row `["ok","5"]`. -/
theorem flattenTop_scenario_b :
    flattenTop [("status", .str "ok"), ("data", .obj [("id", .str "5")])] =
      [("status", .str "ok"), ("data.id", .str "5")] := rfl

end ManageEngine
